import Mathlib

/-
Verification of the overlay/stack provisioning tool (src/overlay.py).

The source program is embedded shallowly:
- JSON values (as produced by `json.loads`) become the inductive `JValue`;
  dictionaries are association lists in insertion order with unique keys.
- Python dictionary/containment/subscript operations become `Except`-valued
  helpers that model the exceptions (`KeyError`, `TypeError`, ...) the Python
  operations raise, with the exception class kept in the error string.
- OS-level side effects (subprocess invocations, directory creation/removal)
  become an `Event` trace; their success or failure is supplied by an
  oracle (`Sys`), the filesystem seen by the program by an abstract `FS`.
- `sys.exit(n)` becomes the outcome `Outcome.exit n`; an uncaught Python
  exception becomes `Outcome.pyerror`; normal return is `Outcome.ok`.
- the unbounded stack-in-stack recursion of `apply_stack` is modelled with a
  fuel parameter counting nesting depth (`Outcome.outOfFuel` when exhausted).
Logging prints are not modelled as events, except the resolution-error
diagnostics, which claims about resolution failures refer to.
-/

/-- JSON values as returned by `json.loads`: dictionaries are modelled as
association lists in insertion order with unique keys. -/
inductive JValue where
  | null
  | bool (b : Bool)
  | num (n : Int)
  | str (s : String)
  | list (xs : List JValue)
  | obj (fields : List (String × JValue))

mutual

/-- Python equality (`==`) on JSON-loadable values. Dictionary equality is
modelled order-sensitively; the program only compares scalar values. -/
def JValue.beq : JValue → JValue → Bool
  | .null, .null => true
  | .bool a, .bool b => a == b
  | .num a, .num b => a == b
  | .str a, .str b => a == b
  | .list xs, .list ys => JValue.beqList xs ys
  | .obj xs, .obj ys => JValue.beqObj xs ys
  | _, _ => false

/-- Elementwise Python equality of two JSON lists. -/
def JValue.beqList : List JValue → List JValue → Bool
  | [], [] => true
  | x :: xs, y :: ys => JValue.beq x y && JValue.beqList xs ys
  | _, _ => false

/-- Entrywise Python equality of two JSON dictionaries. -/
def JValue.beqObj : List (String × JValue) → List (String × JValue) → Bool
  | [], [] => true
  | (k, v) :: xs, (l, w) :: ys => k == l && JValue.beq v w && JValue.beqObj xs ys
  | _, _ => false

end

/-- Whether a value is a JSON string equal to `s` (Python `v == "s"` against a
string literal). -/
def JValue.isS : JValue → String → Bool
  | .str a, b => a == b
  | _, _ => false

/-- Whether a value is a dictionary (`isinstance(v, dict)`). -/
def JValue.isObjB : JValue → Bool
  | .obj _ => true
  | _ => false

/-- First-match lookup in an association list (dictionary keys are unique). -/
def lookupField (fields : List (String × JValue)) (key : String) : Option JValue :=
  match fields.find? (fun kv => kv.1 == key) with
  | some kv => some kv.2
  | none => none

/-- Python subscript `v[key]` with a string key: `KeyError` on a missing
dictionary key, `TypeError` on every non-dictionary value. -/
def pyGetItem (v : JValue) (key : String) : Except String JValue :=
  match v with
  | .obj fields =>
    match lookupField fields key with
    | some x => Except.ok x
    | none => Except.error ("KeyError: " ++ key)
  | _ => Except.error "TypeError: value is not subscriptable with a string key"

/-- Whether `pre` is an exact leading segment of `s`. -/
def takeEq (pre s : List Char) : Bool :=
  s.take pre.length == pre

/-- Whether `needle` occurs as a contiguous segment of the list. -/
def isSubstrL (needle : List Char) : List Char → Bool
  | [] => needle.isEmpty
  | c :: rest => takeEq needle (c :: rest) || isSubstrL needle rest

/-- Python substring containment `needle in hay` for strings. -/
def is_substr (needle hay : String) : Bool :=
  isSubstrL needle.data hay.data

/-- Python containment `needle in v` for a string needle: substring test on
strings, membership on lists, key membership on dictionaries, and a
`TypeError` on non-iterable values (numbers, booleans, `None`). -/
def pyContains (v : JValue) (needle : String) : Except String Bool :=
  match v with
  | .obj fields => Except.ok (fields.any (fun kv => kv.1 == needle))
  | .list xs => Except.ok (xs.any (fun x => x.isS needle))
  | .str s => Except.ok (is_substr needle s)
  | _ => Except.error "TypeError: argument of type is not iterable"

/-- Python `dict.get(key, default)`; only applied to dictionaries in the
program (on any other value Python would raise `AttributeError`). -/
def pyGet (v : JValue) (key : String) (default : JValue) : JValue :=
  match v with
  | .obj fields =>
    match lookupField fields key with
    | some x => x
    | none => default
  | _ => default

/-- Python truthiness of a JSON-loadable value. -/
def pyTruthy : JValue → Bool
  | .null => false
  | .bool b => b
  | .num n => n != 0
  | .str s => !(s == "")
  | .list xs => !xs.isEmpty
  | .obj fields => !fields.isEmpty

/-- Python `str()` rendering as used by f-strings. Containers are abbreviated;
the program only renders strings and numbers into command lines. -/
def pyStr : JValue → String
  | .str s => s
  | .num n => toString n
  | .bool true => "True"
  | .bool false => "False"
  | .null => "None"
  | .list _ => "[...]"
  | .obj _ => "\x7b...\x7d"

/-- Python left-to-right non-overlapping `str.replace` on character lists.
Each step consumes at least one character, so fuel equal to the input length
makes the recursion structural (and hence directly evaluable). -/
def replaceAllL (old new : List Char) : Nat → List Char → List Char
  | 0, cs => cs
  | fuel + 1, cs =>
    match cs with
    | [] => []
    | c :: rest =>
      if !old.isEmpty && takeEq old (c :: rest) then
        new ++ replaceAllL old new fuel ((c :: rest).drop old.length)
      else
        c :: replaceAllL old new fuel rest

/-- Python `s.replace(old, new)`. -/
def py_replace (s old new : String) : String :=
  ⟨replaceAllL old.data new.data s.data.length s.data⟩

/-- Whether the string starts with `/`. -/
def starts_with_slash (s : String) : Bool :=
  match s.data with
  | '/' :: _ => true
  | _ => false

/-- Whether the string ends with `/`. -/
def ends_with_slash (s : String) : Bool :=
  s.data.getLast? == some '/'

/-- `os.path.join(a, b)` for POSIX paths, as the program uses it. -/
def pyJoin (a b : String) : String :=
  if starts_with_slash b then b
  else if a == "" || ends_with_slash a then a ++ b
  else a ++ "/" ++ b

/-- `os.path.dirname` for POSIX paths: everything up to the last separator,
with trailing separators stripped unless the result is all separators. -/
def py_dirname (p : String) : String :=
  let cs := p.data
  let k := (cs.reverse.takeWhile (fun c => !(c == '/'))).length
  let head := cs.take (cs.length - k)
  if head.isEmpty || head.all (fun c => c == '/') then ⟨head⟩
  else ⟨(head.reverse.dropWhile (fun c => c == '/')).reverse⟩

/-- Python `s.lstrip("/")`: drop every leading slash. -/
def py_lstrip_slash (s : String) : String :=
  ⟨s.data.dropWhile (fun c => c == '/')⟩

/-- Whether `p` is a leading segment of `s` (Python `s.startswith(p)`). -/
def starts_with_str (p s : String) : Bool :=
  takeEq p.data s.data

example : pyJoin "/a" "overlays" = "/a/overlays" := by decide
example : pyJoin "/a" "/b" = "/b" := by decide
example : py_dirname "/mnt/etc/hosts" = "/mnt/etc" := by decide
example : py_lstrip_slash "//etc/x" = "etc/x" := by decide
example : py_replace "$RESOURCES/data.txt" "$RESOURCES" "/srv/res" = "/srv/res/data.txt" := by decide

/-- Module-level constant `OVERLAY_DIR`. -/
def OVERLAY_DIR : String := "overlays"

/-- Module-level constant `STACK_DIR`. -/
def STACK_DIR : String := "stacks"

/-- Module-level constant `RESOURCES`, the placeholder token. -/
def RESOURCES : String := "$RESOURCES"

/-- The per-command loop of `validate_overlay`. Each check mirrors one
source condition, including the exceptions the Python code can raise when a
command is not a dictionary: the containment test `"type" not in command`
raises `TypeError` on non-iterable values, the diagnostic call `command.get`
raises `AttributeError` on non-dictionaries, and the subscript
`command["type"]` raises `TypeError` on strings and lists. -/
def validate_overlay_commands : List JValue → Except String Bool
  | [] => Except.ok true
  | command :: rest =>
    match pyContains command "type" with
    | Except.error e => Except.error e
    | Except.ok hasType =>
      if !hasType then
        match command with
        | JValue.obj _ => Except.ok false
        | _ => Except.error "AttributeError: value has no attribute get"
      else
        match pyGetItem command "type" with
        | Except.error e => Except.error e
        | Except.ok t =>
          if !(t.isS "local" || t.isS "copy-into-chroot" || t.isS "copy-from-chroot" ||
               t.isS "chroot-cmd" || t.isS "chroot-script" || t.isS "chroot-rm" ||
               t.isS "chroot-install-package") then
            Except.ok false
          else
            match pyContains command "script" with
            | Except.error e => Except.error e
            | Except.ok hasScript =>
              if (t.isS "local" || t.isS "chroot-script") && !hasScript then Except.ok false
              else
                match pyContains command "source", pyContains command "destination" with
                | Except.error e, _ => Except.error e
                | _, Except.error e => Except.error e
                | Except.ok hasSource, Except.ok hasDest =>
                  if (t.isS "copy-into-chroot" || t.isS "copy-from-chroot") &&
                     !(hasSource && hasDest) then Except.ok false
                  else
                    match pyContains command "cmd" with
                    | Except.error e => Except.error e
                    | Except.ok hasCmd =>
                      if t.isS "chroot-cmd" && !hasCmd then Except.ok false
                      else if t.isS "chroot-rm" && !hasDest then Except.ok false
                      else
                        match pyContains command "package" with
                        | Except.error e => Except.error e
                        | Except.ok hasPackage =>
                          if t.isS "chroot-install-package" && !hasPackage then Except.ok false
                          else validate_overlay_commands rest

/-- `validate_overlay`: structural validation of an overlay definition.
Returns the boolean the Python function returns; an `Except.error` models an
exception escaping the Python function. -/
def validate_overlay (json_data : JValue) : Except String Bool :=
  match json_data with
  | JValue.obj fields =>
    if !(["name", "description", "commands"].all (fun k => fields.any (fun kv => kv.1 == k))) then
      Except.ok false
    else
      match pyGetItem json_data "commands" with
      | Except.error e => Except.error e
      | Except.ok (JValue.list commands) => validate_overlay_commands commands
      | Except.ok _ => Except.ok false
  | _ => Except.ok false

/-- The per-step loop of `validate_stack`. Steps are checked to be
dictionaries before any subscripting, so no error branch is reachable. -/
def validate_stack_steps : List JValue → Except String Bool
  | [] => Except.ok true
  | step :: rest =>
    match step with
    | JValue.obj _ =>
      match pyContains step "type" with
      | Except.error e => Except.error e
      | Except.ok hasType =>
        if !hasType then Except.ok false
        else
          match pyGetItem step "type" with
          | Except.error e => Except.error e
          | Except.ok t =>
            if !(t.isS "overlay" || t.isS "stack") then Except.ok false
            else
              match pyContains step "name" with
              | Except.error e => Except.error e
              | Except.ok hasName =>
                if t.isS "overlay" && !hasName then Except.ok false
                else if t.isS "stack" && !hasName then Except.ok false
                else validate_stack_steps rest
    | _ => Except.ok false

/-- `validate_stack`: structural validation of a stack definition. -/
def validate_stack (json_data : JValue) : Except String Bool :=
  match json_data with
  | JValue.obj fields =>
    if !(["name", "description", "steps"].all (fun k => fields.any (fun kv => kv.1 == k))) then
      Except.ok false
    else
      match pyGetItem json_data "steps" with
      | Except.error e => Except.error e
      | Except.ok (JValue.list steps) => validate_stack_steps steps
      | Except.ok _ => Except.ok false
  | _ => Except.ok false

/-- Abstract filesystem as seen by the program: directory/file existence
tests, directory listing (`os.listdir`), and JSON loading
(`json_load_and_support_comments`; `none` models a read or parse failure). -/
structure FS where
  isDir : String → Bool
  isFile : String → Bool
  listdir : String → List String
  readJson : String → Option JValue

/-- Oracle for the outcomes of OS-level primitives: success of
`subprocess.run(..., shell=True, check=True)` commands, of list-argv
invocations, the return code test of local scripts, `os.path.exists`, and the
directory returned by `tempfile.mkdtemp`. -/
structure Sys where
  shellOk : String → Bool
  argvOk : List String → Bool
  localOk : String → String → Bool
  pathExists : String → Bool
  tempDir : String

/-- One observable side effect of a run. -/
inductive Event where
  | runLocal (script temp_dir : String)
  | shell (cmd : String)
  | runArgv (args : List String)
  | makedirs (dir : String)
  | mkdtemp (dir : String)
  | rmtree (dir : String)
  | resolutionError (msg : String)
deriving DecidableEq, Repr

/-- How a piece of the program finished: normal return, `sys.exit(code)`, an
uncaught Python exception, or fuel exhaustion of the model. -/
inductive Outcome where
  | ok
  | exit (code : Nat)
  | pyerror (msg : String)
  | outOfFuel
deriving DecidableEq, Repr

/-- Whether the oracle reports the primitive behind an event as succeeding
(events that are not fallible primitives count as succeeding). -/
def event_ok (sys : Sys) : Event → Bool
  | Event.shell c => sys.shellOk c
  | Event.runArgv a => sys.argvOk a
  | Event.runLocal s t => sys.localOk s t
  | _ => true

/-- The ambient state every operation receives: the oracles, the process
environment (`os.environ` as an association list in iteration order with
unique keys), the mount point, the resources path (`""` when none was
supplied, as `main` passes `args.resources or ""`), and the global
`overlay_search_paths`. -/
structure Ctx where
  sys : Sys
  fs : FS
  environ : List (String × String)
  mount : String
  resources : String
  search_paths : List String

/-- `_collect_overlay_env_for_chroot`: keep exactly the environment entries
whose key starts with `PKG_` or equals `PIN_PRIORITY`. The Python loop
builds a dict by insertion; over a unique-keyed association list that is the
order-preserving filter. -/
def collect_overlay_env_for_chroot (environ : List (String × String)) : List (String × String) :=
  environ.filter (fun kv => starts_with_str "PKG_" kv.1 || kv.1 == "PIN_PRIORITY")

/-- `_env_prefix`: render the collected entries as space-separated
KEY="VALUE" shell assignments. -/
def env_assignments (env : List (String × String)) : String :=
  String.intercalate " " (env.map (fun kv => kv.1 ++ "=\"" ++ kv.2 ++ "\""))

/-- The full shell line `run_chroot_cmd` executes. -/
def chroot_full_cmd (environ : List (String × String)) (mount cmd : String) : String :=
  "sudo chroot " ++ mount ++ " /usr/bin/env DEBIAN_FRONTEND=noninteractive " ++
    env_assignments (collect_overlay_env_for_chroot environ) ++
    " /bin/bash -lc \"" ++ cmd ++ "\""

/-- A single-quote character (kept out of string literals). -/
def squote : String := ⟨[Char.ofNat 39]⟩

/-- The full shell line `run_chroot_script` uses to execute the staged
script inside the chroot. -/
def chroot_script_run_cmd (environ : List (String × String)) (mount : String) : String :=
  "sudo chroot " ++ mount ++ " /usr/bin/env DEBIAN_FRONTEND=noninteractive " ++
    env_assignments (collect_overlay_env_for_chroot environ) ++
    " /bin/bash -lc " ++ squote ++ "/tmp/chroot-script" ++ squote

/-- `run_local_script`: run the script on the host with the scratch directory
as its argument; a non-zero return code is fatal. -/
def run_local_script (sys : Sys) (script_path temp_dir : String) : List Event × Outcome :=
  ([Event.runLocal script_path temp_dir],
   if sys.localOk script_path temp_dir then Outcome.ok else Outcome.exit 1)

/-- `replace_resources`: substitute the `$RESOURCES` placeholder when a
resources path was supplied (non-empty, hence truthy) and the token occurs. -/
def replace_resources (path : String) (resources : String) : String :=
  if !(resources == "") && is_substr RESOURCES path then
    py_replace path RESOURCES resources
  else path

/-- The host-side path computation inlined in `apply_overlay` for the
`copy-into-chroot` source and the `copy-from-chroot` destination: substitute
the placeholder when present (leaving it unexpanded when no resources path
was supplied), otherwise resolve relative to the overlay directory. -/
def resolve_host_path (overlay_path value resources : String) : String :=
  if is_substr RESOURCES value then
    if !(resources == "") then py_replace value RESOURCES resources else value
  else pyJoin overlay_path value

/-- `copy_files`: copy into or out of the chroot. The parent directory of the
computed destination is created first (`os.makedirs(..., exist_ok=True)`),
then the recursive copy runs, then (into the chroot only) the permission
bits are set; each failing step is fatal. The `resources` parameter is
accepted and unused, as in the source. -/
def copy_files (sys : Sys) (mount_point resources : String) (source destination : String)
    (into_chroot : Bool) (permissions : String) : List Event × Outcome :=
  let dest_path := if into_chroot then pyJoin mount_point (py_lstrip_slash destination)
                   else destination
  let source_path := if into_chroot then source
                     else pyJoin mount_point (py_lstrip_slash source)
  let cp_cmd := "sudo cp -r " ++ source_path ++ " " ++ dest_path
  let pre := [Event.makedirs (py_dirname dest_path), Event.shell cp_cmd]
  if sys.shellOk cp_cmd then
    if into_chroot then
      let chmod_cmd := "sudo chmod " ++ permissions ++ " " ++ dest_path
      (pre ++ [Event.shell chmod_cmd],
       if sys.shellOk chmod_cmd then Outcome.ok else Outcome.exit 1)
    else (pre, Outcome.ok)
  else (pre, Outcome.exit 1)

/-- `install_package`: run the package manager inside the chroot (list-argv
invocation); a non-zero exit is fatal. -/
def install_package (sys : Sys) (mount_point resources package : String) : List Event × Outcome :=
  let args := ["sudo", "chroot", mount_point, "/bin/bash", "-c",
               "apt-get install --no-install-recommends -y " ++ package]
  ([Event.runArgv args], if sys.argvOk args then Outcome.ok else Outcome.exit 1)

/-- `delete_files`: recursive removal below the mount point; failure fatal. -/
def delete_files (sys : Sys) (mount_point resources destination : String) : List Event × Outcome :=
  let dest_path := pyJoin mount_point (py_lstrip_slash destination)
  let cmd := "sudo rm -rf " ++ dest_path
  ([Event.shell cmd], if sys.shellOk cmd then Outcome.ok else Outcome.exit 1)

/-- `run_chroot_cmd`: run a shell command inside the chroot with the filtered
environment; on failure, `ignore-errors` (truthiness of the value from the
command definition) downgrades the abort to a logged warning. -/
def run_chroot_cmd (ctx : Ctx) (cmd : String) (ignore_errors : JValue) : List Event × Outcome :=
  let full_cmd := chroot_full_cmd ctx.environ ctx.mount cmd
  ([Event.shell full_cmd],
   if ctx.sys.shellOk full_cmd then Outcome.ok
   else if pyTruthy ignore_errors then Outcome.ok
   else Outcome.exit 1)

/-- `run_chroot_script`: stage the script into the chroot, mark it
executable, run it with the filtered environment, then strictly clean up:
a missing temporary copy, or a failing removal, aborts the run. -/
def run_chroot_script (ctx : Ctx) (script_path : String) : List Event × Outcome :=
  let mkdir_cmd := "sudo mkdir -p " ++ ctx.mount ++ "/tmp"
  if !ctx.sys.shellOk mkdir_cmd then ([Event.shell mkdir_cmd], Outcome.exit 1)
  else
    let dst_in_chroot_host := ctx.mount ++ "/tmp/chroot-script"
    let cp_cmd := "sudo cp " ++ script_path ++ " " ++ dst_in_chroot_host
    if !ctx.sys.shellOk cp_cmd then
      ([Event.shell mkdir_cmd, Event.shell cp_cmd], Outcome.exit 1)
    else
      let chmod_cmd := "sudo chmod +x " ++ dst_in_chroot_host
      if !ctx.sys.shellOk chmod_cmd then
        ([Event.shell mkdir_cmd, Event.shell cp_cmd, Event.shell chmod_cmd], Outcome.exit 1)
      else
        let script_run_line := chroot_script_run_cmd ctx.environ ctx.mount
        if !ctx.sys.shellOk script_run_line then
          ([Event.shell mkdir_cmd, Event.shell cp_cmd, Event.shell chmod_cmd,
            Event.shell script_run_line], Outcome.exit 1)
        else if !ctx.sys.pathExists dst_in_chroot_host then
          ([Event.shell mkdir_cmd, Event.shell cp_cmd, Event.shell chmod_cmd,
            Event.shell script_run_line], Outcome.exit 1)
        else
          let rm_cmd := "sudo rm " ++ dst_in_chroot_host
          ([Event.shell mkdir_cmd, Event.shell cp_cmd, Event.shell chmod_cmd,
            Event.shell script_run_line, Event.shell rm_cmd],
           if ctx.sys.shellOk rm_cmd then Outcome.ok else Outcome.exit 1)

/-- Run a sequence of units in order, concatenating traces; the first unit
that does not return normally stops the run with its outcome. -/
def runSeq (f : JValue → List Event × Outcome) : List JValue → List Event × Outcome
  | [] => ([], Outcome.ok)
  | x :: xs =>
    match f x with
    | (es, Outcome.ok) =>
      let r := runSeq f xs
      (es ++ r.1, r.2)
    | r => r

/-- One iteration of the command loop of `apply_overlay`: dispatch on
`command["type"]` and execute the variant. Non-string values in positions
where the source applies string operations (`os.path.join`, `str.lstrip`,
`str.replace`) are modelled as the type errors Python raises there. An
unknown command type is logged and skipped (normal return). -/
def exec_command (ctx : Ctx) (overlay_path temp_dir : String) (command : JValue) :
    List Event × Outcome :=
  match pyGetItem command "type" with
  | Except.error e => ([], Outcome.pyerror e)
  | Except.ok t =>
    if t.isS "local" then
      match pyGetItem command "script" with
      | Except.error e => ([], Outcome.pyerror e)
      | Except.ok (JValue.str s) => run_local_script ctx.sys (pyJoin overlay_path s) temp_dir
      | Except.ok _ => ([], Outcome.pyerror "TypeError: join on non-string path")
    else if t.isS "copy-into-chroot" then
      match pyGetItem command "source" with
      | Except.error e => ([], Outcome.pyerror e)
      | Except.ok (JValue.str src) =>
        let path := resolve_host_path overlay_path src ctx.resources
        match pyContains command "permissions" with
        | Except.error e => ([], Outcome.pyerror e)
        | Except.ok false => ([], Outcome.exit 1)
        | Except.ok true =>
          let permissions := pyStr (pyGet command "permissions" (JValue.str "644"))
          match pyGetItem command "destination" with
          | Except.error e => ([], Outcome.pyerror e)
          | Except.ok (JValue.str dst) =>
            copy_files ctx.sys ctx.mount ctx.resources path dst true permissions
          | Except.ok _ => ([], Outcome.pyerror "TypeError: lstrip on non-string path")
      | Except.ok srcJ =>
        match pyContains srcJ RESOURCES with
        | Except.error e => ([], Outcome.pyerror e)
        | Except.ok _ => ([], Outcome.pyerror "TypeError: join on non-string path")
    else if t.isS "copy-from-chroot" then
      match pyGetItem command "destination" with
      | Except.error e => ([], Outcome.pyerror e)
      | Except.ok (JValue.str dst) =>
        let path := resolve_host_path overlay_path dst ctx.resources
        match pyGetItem command "source" with
        | Except.error e => ([], Outcome.pyerror e)
        | Except.ok (JValue.str src) =>
          copy_files ctx.sys ctx.mount ctx.resources src path false "644"
        | Except.ok _ => ([], Outcome.pyerror "TypeError: lstrip on non-string path")
      | Except.ok dstJ =>
        match pyContains dstJ RESOURCES with
        | Except.error e => ([], Outcome.pyerror e)
        | Except.ok _ => ([], Outcome.pyerror "TypeError: join on non-string path")
    else if t.isS "chroot-cmd" then
      let ignore_errors := pyGet command "ignore-errors" (JValue.bool false)
      match pyGetItem command "cmd" with
      | Except.error e => ([], Outcome.pyerror e)
      | Except.ok c => run_chroot_cmd ctx (pyStr c) ignore_errors
    else if t.isS "chroot-script" then
      match pyGetItem command "script" with
      | Except.error e => ([], Outcome.pyerror e)
      | Except.ok (JValue.str s) => run_chroot_script ctx (pyJoin overlay_path s)
      | Except.ok _ => ([], Outcome.pyerror "TypeError: join on non-string path")
    else if t.isS "chroot-rm" then
      match pyGetItem command "destination" with
      | Except.error e => ([], Outcome.pyerror e)
      | Except.ok (JValue.str d) => delete_files ctx.sys ctx.mount ctx.resources d
      | Except.ok _ => ([], Outcome.pyerror "TypeError: lstrip on non-string path")
    else if t.isS "chroot-install-package" then
      match pyGetItem command "package" with
      | Except.error e => ([], Outcome.pyerror e)
      | Except.ok p => install_package ctx.sys ctx.mount ctx.resources (pyStr p)
    else ([], Outcome.ok)

/-- `apply_overlay`: load the overlay definition (no re-validation happens
here), create the scratch directory, run the command list in order, and
remove the scratch directory only on normal completion (the source has no
try/finally around the loop). -/
def apply_overlay (ctx : Ctx) (overlay_path : String) : List Event × Outcome :=
  let file_name := pyJoin overlay_path "overlay.json"
  match ctx.fs.readJson file_name with
  | none => ([], Outcome.pyerror "JSON load failed")
  | some overlay_data =>
    let temp_dir := ctx.sys.tempDir
    match pyGetItem overlay_data "commands" with
    | Except.error e => ([Event.mkdtemp temp_dir], Outcome.pyerror e)
    | Except.ok (JValue.list commands) =>
      match runSeq (exec_command ctx overlay_path temp_dir) commands with
      | (es, Outcome.ok) =>
        (Event.mkdtemp temp_dir :: (es ++ [Event.rmtree temp_dir]), Outcome.ok)
      | (es, o) => (Event.mkdtemp temp_dir :: es, o)
    | Except.ok _ => ([Event.mkdtemp temp_dir], Outcome.pyerror "TypeError: not iterable")

/-- The candidate directory `os.path.join(base, OVERLAY_DIR, name)` probed
during overlay resolution. -/
def overlay_def_dir (base name : String) : String :=
  pyJoin (pyJoin base OVERLAY_DIR) name

/-- The candidate file `os.path.join(base, STACK_DIR, name + ".json")` probed
during stack resolution. -/
def stack_def_file (base name : String) : String :=
  pyJoin (pyJoin base STACK_DIR) (name ++ ".json")

/-- Resolution of an overlay name as the source implements it: the first
search path whose `overlays/<name>` DIRECTORY exists (the for/break loop in
`process_stack_step` and `main`). -/
def resolve_overlay_dir (fs : FS) (paths : List String) (name : String) : Option String :=
  paths.find? (fun base => fs.isDir (overlay_def_dir base name))

/-- Resolution of a stack name as the source implements it: the first search
path whose `stacks/<name>.json` file exists. -/
def resolve_stack_file (fs : FS) (paths : List String) (name : String) : Option String :=
  paths.find? (fun base => fs.isFile (stack_def_file base name))

/-- Overlay resolution as the spec words it (for comparison with
`resolve_overlay_dir`): the first search path whose
`overlays/<name>/overlay.json` FILE exists. -/
def spec_resolve_overlay_dir (fs : FS) (paths : List String) (name : String) : Option String :=
  paths.find? (fun base => fs.isFile (pyJoin (overlay_def_dir base name) "overlay.json"))

/-- Body of `process_stack_step` with the recursive stack application passed
as a continuation (`apply_stack` one nesting level deeper): skip a disabled
step, otherwise resolve the step name across the search paths (first
`overlays/<name>` directory for overlay steps, first `stacks/<name>.json`
file for stack steps) and apply it; an unresolved name or an unknown step
type terminates the run. The initial progress print subscripts
`step["name"]` before anything else, so a missing name key raises `KeyError`
even for disabled steps. A non-string name makes `os.path.join` raise inside
the search loop, hence only when at least one search path exists. -/
def process_stack_step_core (apply_stack_next : String → List Event × Outcome)
    (ctx : Ctx) (step : JValue) : List Event × Outcome :=
  match pyGetItem step "name" with
  | Except.error e => ([], Outcome.pyerror e)
  | Except.ok nameJ =>
    match pyContains step "enabled" with
    | Except.error e => ([], Outcome.pyerror e)
    | Except.ok hasEnabled =>
      if hasEnabled && !pyTruthy (pyGet step "enabled" JValue.null) then
        ([], Outcome.ok)
      else
        match pyGetItem step "type" with
        | Except.error e => ([], Outcome.pyerror e)
        | Except.ok t =>
          if t.isS "overlay" then
            match nameJ with
            | JValue.str n =>
              match resolve_overlay_dir ctx.fs ctx.search_paths n with
              | some base => apply_overlay ctx (overlay_def_dir base n)
              | none =>
                ([Event.resolutionError ("overlay not found in overlay paths: " ++ n)],
                 Outcome.exit 1)
            | _ =>
              if ctx.search_paths.isEmpty then
                ([Event.resolutionError "overlay not found in overlay paths"], Outcome.exit 1)
              else ([], Outcome.pyerror "TypeError: join on non-string name")
          else if t.isS "stack" then
            match nameJ with
            | JValue.str n =>
              match resolve_stack_file ctx.fs ctx.search_paths n with
              | some base => apply_stack_next (stack_def_file base n)
              | none =>
                ([Event.resolutionError ("stack json not found in overlay paths: " ++ n)],
                 Outcome.exit 1)
            | _ =>
              if ctx.search_paths.isEmpty then
                ([Event.resolutionError "stack json not found in overlay paths"], Outcome.exit 1)
              else ([], Outcome.pyerror "TypeError: join on non-string name")
          else ([], Outcome.exit 1)

/-- `apply_stack`: check the stack file exists, load it, validate it, then
process its steps in order with `process_stack_step`. The fuel counts stack
nesting depth (the source recurses unboundedly with no cycle detection). -/
def apply_stack : Nat → Ctx → String → List Event × Outcome
  | 0, _, _ => ([], Outcome.outOfFuel)
  | fuel + 1, ctx, stack_path =>
    if !ctx.fs.isFile stack_path then
      ([Event.resolutionError ("Stack not found: " ++ stack_path)], Outcome.exit 1)
    else
      match ctx.fs.readJson stack_path with
      | none => ([], Outcome.pyerror "JSON load failed")
      | some stack_data =>
        match validate_stack stack_data with
        | Except.error e => ([], Outcome.pyerror e)
        | Except.ok false => ([], Outcome.exit 1)
        | Except.ok true =>
          match pyGetItem stack_data "steps" with
          | Except.ok (JValue.list steps) =>
            runSeq (fun step =>
              process_stack_step_core (fun p => apply_stack fuel ctx p) ctx step) steps
          | _ => ([], Outcome.pyerror "unreachable: steps not a list after validation")

/-- `process_stack_step` at a given nesting-depth budget. -/
def process_stack_step (fuel : Nat) (ctx : Ctx) (step : JValue) : List Event × Outcome :=
  process_stack_step_core (fun p => apply_stack fuel ctx p) ctx step

/-- The `for step in stack_data["steps"]` loop of `apply_stack`. -/
def run_stack_steps (fuel : Nat) (ctx : Ctx) (steps : List JValue) : List Event × Outcome :=
  runSeq (fun step => process_stack_step_core (fun p => apply_stack fuel ctx p) ctx step) steps

/-- Inner body of the `list_overlays` scan for one directory entry: a
candidate counts when `overlays/<entry>` is a directory containing an
`overlay.json` file; a JSON parse failure is caught and scanning continues;
any other exception (e.g. from `validate_overlay`) propagates; a valid
overlay is kept only when its `name` value was not seen before. The state is
the accumulated overlay list paired with the seen names. -/
def list_overlays_entry (fs : FS) (overlays_dir : String)
    (st : List (JValue × String) × List JValue) (overlay_name : String) :
    Except String (List (JValue × String) × List JValue) :=
  let overlay_path := pyJoin overlays_dir overlay_name
  let json_file := pyJoin overlay_path "overlay.json"
  if fs.isDir overlay_path && fs.isFile json_file then
    match fs.readJson json_file with
    | none => Except.ok st
    | some overlay_data =>
      match validate_overlay overlay_data with
      | Except.error e => Except.error e
      | Except.ok false => Except.ok st
      | Except.ok true =>
        match pyGetItem overlay_data "name" with
        | Except.error e => Except.error e
        | Except.ok nm =>
          if st.2.any (fun s => JValue.beq nm s) then Except.ok st
          else Except.ok (st.1 ++ [(overlay_data, overlay_path)], st.2 ++ [nm])
  else Except.ok st

/-- The `for overlay_name in os.listdir(overlays_dir)` loop of
`list_overlays`. -/
def list_overlays_scan (fs : FS) (overlays_dir : String)
    (st : List (JValue × String) × List JValue) :
    List String → Except String (List (JValue × String) × List JValue)
  | [] => Except.ok st
  | overlay_name :: rest =>
    match list_overlays_entry fs overlays_dir st overlay_name with
    | Except.error e => Except.error e
    | Except.ok st2 => list_overlays_scan fs overlays_dir st2 rest

/-- The per-search-path pass of `list_overlays`: skip a base without an
`overlays` directory, otherwise scan its `os.listdir` entries. -/
def list_overlays_base (fs : FS) (st : List (JValue × String) × List JValue)
    (base : String) : Except String (List (JValue × String) × List JValue) :=
  let overlays_dir := pyJoin base OVERLAY_DIR
  if fs.isDir overlays_dir then
    list_overlays_scan fs overlays_dir st (fs.listdir overlays_dir)
  else Except.ok st

/-- The `for base in overlay_search_paths` loop of `list_overlays`. -/
def list_overlays_bases (fs : FS) (st : List (JValue × String) × List JValue) :
    List String → Except String (List (JValue × String) × List JValue)
  | [] => Except.ok st
  | base :: rest =>
    match list_overlays_base fs st base with
    | Except.error e => Except.error e
    | Except.ok st2 => list_overlays_bases fs st2 rest

/-- `list_overlays`: scan every search path, validate each discovered
definition, and deduplicate by the JSON `name`, keeping the first occurrence
in scan order. Returns the listed (definition, directory) pairs. -/
def list_overlays (fs : FS) (search_paths : List String) :
    Except String (List (JValue × String)) :=
  match list_overlays_bases fs ([], []) search_paths with
  | Except.error e => Except.error e
  | Except.ok st => Except.ok st.1

lemma runSeq_cons_of_ok (f : JValue → List Event × Outcome) (x : JValue) (xs : List JValue)
    (h : (f x).2 = Outcome.ok) :
    runSeq f (x :: xs) = ((f x).1 ++ (runSeq f xs).1, (runSeq f xs).2) := by
  rcases hx : f x with ⟨es, o⟩
  rw [hx] at h
  simp only at h
  subst h
  simp [runSeq, hx]

lemma runSeq_cons_of_abort (f : JValue → List Event × Outcome) (x : JValue) (xs : List JValue)
    (h : (f x).2 ≠ Outcome.ok) :
    runSeq f (x :: xs) = f x := by
  rcases hx : f x with ⟨es, o⟩
  rw [hx] at h
  simp only at h
  unfold runSeq
  rw [hx]
  cases o with
  | ok => exact absurd rfl h
  | exit c => rfl
  | pyerror m => rfl
  | outOfFuel => rfl

lemma runSeq_append_abort (f : JValue → List Event × Outcome) (pre : List JValue) (x : JValue)
    (rest : List JValue) (hpre : ∀ p ∈ pre, (f p).2 = Outcome.ok)
    (hx : (f x).2 ≠ Outcome.ok) :
    runSeq f (pre ++ x :: rest) =
      ((pre.map (fun p => (f p).1)).join ++ (f x).1, (f x).2) := by
  induction pre with
  | nil =>
    rw [List.nil_append, runSeq_cons_of_abort f x rest hx]
    simp
  | cons p ps ih =>
    have hp := hpre p (by simp)
    rw [List.cons_append, runSeq_cons_of_ok f p _ hp,
        ih (fun q hq => hpre q (by simp [hq]))]
    simp [List.append_assoc]

/-- C7: the `$RESOURCES` placeholder: with a supplied resources path every
occurrence of the token is replaced (`$RESOURCES/data.txt` with `/srv/res`
yields `/srv/res/data.txt`); with no resources path supplied (empty string)
the token is left unexpanded; and a copy command host-side path without the
token is resolved relative to the overlay directory. -/
theorem resources_placeholder_substitution :
    replace_resources "$RESOURCES/data.txt" "/srv/res" = "/srv/res/data.txt" ∧
    replace_resources "$RESOURCES/a/$RESOURCES/b" "/r" = "/r/a//r/b" ∧
    (∀ path : String, replace_resources path "" = path) ∧
    (∀ overlay_path value resources : String, is_substr RESOURCES value = false →
      resolve_host_path overlay_path value resources = pyJoin overlay_path value) := by
  refine ⟨by decide, by decide, ?_, ?_⟩
  · intro path
    simp [replace_resources]
  · intro overlay_path value resources h
    simp [resolve_host_path, h]

/-- Witness for C7 at a concrete input: a token-free source path resolves
relative to the overlay directory. -/
theorem resources_placeholder_substitution_witness :
    is_substr RESOURCES "files/a.txt" = false ∧
    resolve_host_path "/ov" "files/a.txt" "/srv/res" = pyJoin "/ov" "files/a.txt" :=
  ⟨by decide, resources_placeholder_substitution.2.2.2 "/ov" "files/a.txt" "/srv/res" (by decide)⟩

/-- C10: for both copy directions, `copy_files` first creates the parent
directory of the computed destination path (`os.makedirs` with
`exist_ok=True`, i.e. created when it does not already exist) and only then
invokes the copy primitive. -/
theorem copy_dest_parent_created_first (sys : Sys) (mount_point resources source destination : String)
    (into_chroot : Bool) (permissions : String) :
    ∃ rest o,
      copy_files sys mount_point resources source destination into_chroot permissions =
        (Event.makedirs (py_dirname
            (if into_chroot then pyJoin mount_point (py_lstrip_slash destination)
             else destination)) ::
         Event.shell ("sudo cp -r " ++
            (if into_chroot then source else pyJoin mount_point (py_lstrip_slash source)) ++
            " " ++
            (if into_chroot then pyJoin mount_point (py_lstrip_slash destination)
             else destination)) :: rest, o) := by
  simp only [copy_files]
  split_ifs <;> exact ⟨_, _, rfl⟩

/-- The allowlist predicate for environment forwarding: a `PKG_`-prefixed
name or exactly `PIN_PRIORITY`. -/
def env_forwarded (kv : String × String) : Bool :=
  starts_with_str "PKG_" kv.1 || kv.1 == "PIN_PRIORITY"

lemma collect_env_eq_filter (environ : List (String × String)) :
    collect_overlay_env_for_chroot environ = environ.filter env_forwarded := rfl

/-- C9: two process environments that agree on the `PKG_`-prefixed variables
and on `PIN_PRIORITY` (their allowlisted sublists coincide) induce the same
forwarded environment, hence identical full command lines for `chroot-cmd`
and `chroot-script` executions; and no entry outside the allowlist
influences the forwarded environment. -/
theorem chroot_env_isolation (env1 env2 : List (String × String)) (mount cmd : String)
    (h : env1.filter env_forwarded = env2.filter env_forwarded) :
    collect_overlay_env_for_chroot env1 = collect_overlay_env_for_chroot env2 ∧
    chroot_full_cmd env1 mount cmd = chroot_full_cmd env2 mount cmd ∧
    chroot_script_run_cmd env1 mount = chroot_script_run_cmd env2 mount ∧
    (∀ (xs ys : List (String × String)) (k v : String), env_forwarded (k, v) = false →
      collect_overlay_env_for_chroot (xs ++ (k, v) :: ys) =
        collect_overlay_env_for_chroot (xs ++ ys)) := by
  have hc : collect_overlay_env_for_chroot env1 = collect_overlay_env_for_chroot env2 := by
    rw [collect_env_eq_filter, collect_env_eq_filter, h]
  refine ⟨hc, ?_, ?_, ?_⟩
  · unfold chroot_full_cmd
    rw [hc]
  · unfold chroot_script_run_cmd
    rw [hc]
  · intro xs ys k v hk
    rw [collect_env_eq_filter, collect_env_eq_filter]
    simp [List.filter_append, List.filter_cons, hk]

/-- Witness for C9: two concrete environments differing only outside the
allowlist produce the same `chroot-cmd` command line. -/
theorem chroot_env_isolation_witness :
    ([("PKG_A", "1"), ("HOME", "/root")] : List (String × String)).filter env_forwarded =
      ([("PKG_A", "1"), ("USER", "u"), ("PATH", "/bin")] : List (String × String)).filter
        env_forwarded ∧
    chroot_full_cmd [("PKG_A", "1"), ("HOME", "/root")] "/mnt" "ls" =
      chroot_full_cmd [("PKG_A", "1"), ("USER", "u"), ("PATH", "/bin")] "/mnt" "ls" :=
  ⟨by decide,
   (chroot_env_isolation [("PKG_A", "1"), ("HOME", "/root")]
      [("PKG_A", "1"), ("USER", "u"), ("PATH", "/bin")] "/mnt" "ls" (by decide)).2.1⟩

/-- C5: a `copy-into-chroot` command with a (string) source but no
`permissions` key makes overlay application exit fatally with an empty
trace for that command: no copy primitive is invoked. -/
theorem copy_missing_permissions_aborts_before_copy (ctx : Ctx)
    (overlay_path temp_dir : String) (command : JValue) (src : String)
    (htype : pyGetItem command "type" = Except.ok (JValue.str "copy-into-chroot"))
    (hsrc : pyGetItem command "source" = Except.ok (JValue.str src))
    (hperm : pyContains command "permissions" = Except.ok false) :
    exec_command ctx overlay_path temp_dir command = ([], Outcome.exit 1) := by
  simp [exec_command, htype, hsrc, hperm, JValue.isS]

/-- Witness for C5 at a concrete command. -/
theorem copy_missing_permissions_aborts_before_copy_witness :
    pyGetItem (JValue.obj [("type", JValue.str "copy-into-chroot"),
        ("source", JValue.str "x")]) "type" = Except.ok (JValue.str "copy-into-chroot") ∧
    exec_command ⟨⟨fun _ => true, fun _ => true, fun _ _ => true, fun _ => true, "/t"⟩,
        ⟨fun _ => false, fun _ => false, fun _ => [], fun _ => none⟩, [], "/mnt", "", ["/a"]⟩
      "/ov" "/t"
      (JValue.obj [("type", JValue.str "copy-into-chroot"), ("source", JValue.str "x")]) =
      ([], Outcome.exit 1) :=
  ⟨rfl, copy_missing_permissions_aborts_before_copy _ "/ov" "/t" _ "x" rfl rfl rfl⟩

lemma lookupField_isSome_of_any (fields : List (String × JValue)) (k : String)
    (h : fields.any (fun kv => kv.1 == k) = true) :
    ∃ x, lookupField fields k = some x := by
  unfold lookupField
  cases hf : fields.find? (fun kv => kv.1 == k) with
  | some kv => exact ⟨kv.2, rfl⟩
  | none =>
    rw [List.find?_eq_none] at hf
    rw [List.any_eq_true] at h
    obtain ⟨kv, hm, hk⟩ := h
    exact absurd hk (by simpa using hf kv hm)

lemma pyGetItem_obj_ok_of_any (fields : List (String × JValue)) (k : String)
    (h : fields.any (fun kv => kv.1 == k) = true) :
    ∃ x, pyGetItem (JValue.obj fields) k = Except.ok x := by
  obtain ⟨x, hx⟩ := lookupField_isSome_of_any fields k h
  exact ⟨x, by simp [pyGetItem, hx]⟩

lemma validate_stack_steps_total (steps : List JValue) :
    ∃ b, validate_stack_steps steps = Except.ok b := by
  induction steps with
  | nil => exact ⟨true, rfl⟩
  | cons step rest ih =>
    cases step with
    | null => exact ⟨false, rfl⟩
    | bool b => exact ⟨false, rfl⟩
    | num n => exact ⟨false, rfl⟩
    | str s => exact ⟨false, rfl⟩
    | list xs => exact ⟨false, rfl⟩
    | obj fields =>
      rw [validate_stack_steps]
      simp only [pyContains]
      by_cases hT : fields.any (fun kv => kv.1 == "type") = true
      · simp only [hT, Bool.not_true, Bool.false_eq_true, if_false]
        obtain ⟨t, ht⟩ := pyGetItem_obj_ok_of_any fields "type" hT
        rw [ht]
        by_cases h2 : (t.isS "overlay" || t.isS "stack") = true
        · simp only [h2, Bool.not_true, Bool.false_eq_true, if_false]
          split_ifs <;> first | exact ⟨false, rfl⟩ | exact ih
        · simp only [Bool.not_eq_true] at h2
          simp only [h2, Bool.not_false, if_true]
          exact ⟨false, rfl⟩
      · simp only [Bool.not_eq_true] at hT
        simp only [hT, Bool.not_false, if_true]
        exact ⟨false, rfl⟩

lemma validate_stack_total (v : JValue) : ∃ b, validate_stack v = Except.ok b := by
  cases v with
  | null => exact ⟨false, rfl⟩
  | bool b => exact ⟨false, rfl⟩
  | num n => exact ⟨false, rfl⟩
  | str s => exact ⟨false, rfl⟩
  | list xs => exact ⟨false, rfl⟩
  | obj fields =>
    unfold validate_stack
    by_cases hreq :
        (["name", "description", "steps"].all (fun k => fields.any (fun kv => kv.1 == k))) = true
    · simp only [hreq, Bool.not_true, Bool.false_eq_true, if_false]
      have hsteps : fields.any (fun kv => kv.1 == "steps") = true := by
        rw [List.all_eq_true] at hreq
        exact hreq "steps" (by simp)
      obtain ⟨x, hx⟩ := pyGetItem_obj_ok_of_any fields "steps" hsteps
      rw [hx]
      cases x with
      | list steps => exact validate_stack_steps_total steps
      | null => exact ⟨false, rfl⟩
      | bool b => exact ⟨false, rfl⟩
      | num n => exact ⟨false, rfl⟩
      | str s => exact ⟨false, rfl⟩
      | obj fs => exact ⟨false, rfl⟩
    · simp only [Bool.not_eq_true] at hreq
      simp only [hreq, Bool.not_false, if_true]
      exact ⟨false, rfl⟩

/-- Whether every element of the overlay definition's `commands` list is a
dictionary (trivially true when the definition has no such list). -/
def commands_all_objects (v : JValue) : Bool :=
  match v with
  | JValue.obj fields =>
    match lookupField fields "commands" with
    | some (JValue.list cs) => cs.all JValue.isObjB
    | _ => true
  | _ => true

lemma validate_overlay_commands_total (cs : List JValue) (h : cs.all JValue.isObjB = true) :
    ∃ b, validate_overlay_commands cs = Except.ok b := by
  induction cs with
  | nil => exact ⟨true, rfl⟩
  | cons command rest ih =>
    rw [List.all_cons, Bool.and_eq_true] at h
    obtain ⟨hobj, hrest⟩ := h
    cases command with
    | obj fields =>
      rw [validate_overlay_commands]
      simp only [pyContains]
      by_cases hT : fields.any (fun kv => kv.1 == "type") = true
      · simp only [hT, Bool.not_true, Bool.false_eq_true, if_false]
        obtain ⟨t, ht⟩ := pyGetItem_obj_ok_of_any fields "type" hT
        rw [ht]
        dsimp only
        split_ifs <;> first | exact ⟨false, rfl⟩ | exact ih hrest
      · simp only [Bool.not_eq_true] at hT
        simp only [hT, Bool.not_false, if_true]
        exact ⟨false, rfl⟩
    | null => exact absurd hobj (by simp [JValue.isObjB])
    | bool b => exact absurd hobj (by simp [JValue.isObjB])
    | num n => exact absurd hobj (by simp [JValue.isObjB])
    | str s => exact absurd hobj (by simp [JValue.isObjB])
    | list xs => exact absurd hobj (by simp [JValue.isObjB])

lemma validate_overlay_total_of (v : JValue) (h : commands_all_objects v = true) :
    ∃ b, validate_overlay v = Except.ok b := by
  cases v with
  | null => exact ⟨false, rfl⟩
  | bool b => exact ⟨false, rfl⟩
  | num n => exact ⟨false, rfl⟩
  | str s => exact ⟨false, rfl⟩
  | list xs => exact ⟨false, rfl⟩
  | obj fields =>
    unfold validate_overlay
    by_cases hreq :
        (["name", "description", "commands"].all (fun k => fields.any (fun kv => kv.1 == k))) = true
    · simp only [hreq, Bool.not_true, Bool.false_eq_true, if_false]
      have hcmds : fields.any (fun kv => kv.1 == "commands") = true := by
        rw [List.all_eq_true] at hreq
        exact hreq "commands" (by simp)
      obtain ⟨x, hx⟩ := lookupField_isSome_of_any fields "commands" hcmds
      have hget : pyGetItem (JValue.obj fields) "commands" = Except.ok x := by
        simp [pyGetItem, hx]
      rw [hget]
      cases x with
      | list cs =>
        apply validate_overlay_commands_total
        simp only [commands_all_objects, hx] at h
        exact h
      | null => exact ⟨false, rfl⟩
      | bool b => exact ⟨false, rfl⟩
      | num n => exact ⟨false, rfl⟩
      | str s => exact ⟨false, rfl⟩
      | obj fs => exact ⟨false, rfl⟩
    · simp only [Bool.not_eq_true] at hreq
      simp only [hreq, Bool.not_false, if_true]
      exact ⟨false, rfl⟩

/-- Counterexample to C4 as stated: on a well-formed dictionary whose
`commands` list contains the number 5, `validate_overlay` does not return a
boolean — the containment test `"type" not in 5` raises `TypeError`, which
escapes the validator. -/
theorem validate_overlay_throw_counterexample :
    validate_overlay (JValue.obj [("name", JValue.str "n"), ("description", JValue.str "d"),
        ("commands", JValue.list [JValue.num 5])]) =
      Except.error "TypeError: argument of type is not iterable" := rfl

/-- C4 (amended): the stack validator returns a boolean and never throws on
any input; the overlay validator does so on every input whose `commands`
elements are all dictionaries (on a non-dictionary command element it
raises, as the counterexample shows). -/
theorem validators_never_throw_amended :
    (∀ v : JValue, ∃ b, validate_stack v = Except.ok b) ∧
    (∀ v : JValue, commands_all_objects v = true → ∃ b, validate_overlay v = Except.ok b) :=
  ⟨validate_stack_total, validate_overlay_total_of⟩

/-- Witness for amended C4 at a concrete overlay definition. -/
theorem validators_never_throw_amended_witness :
    commands_all_objects (JValue.obj [("name", JValue.str "n"),
        ("description", JValue.str "d"),
        ("commands", JValue.list [JValue.obj [("type", JValue.str "chroot-rm"),
          ("destination", JValue.str "/x")]])]) = true ∧
    ∃ b, validate_overlay (JValue.obj [("name", JValue.str "n"),
        ("description", JValue.str "d"),
        ("commands", JValue.list [JValue.obj [("type", JValue.str "chroot-rm"),
          ("destination", JValue.str "/x")]])]) = Except.ok b :=
  ⟨rfl, validators_never_throw_amended.2 _ rfl⟩

lemma run_local_script_ok_events (sys : Sys) (sp td : String)
    (h : (run_local_script sys sp td).2 = Outcome.ok) :
    ∀ e ∈ (run_local_script sys sp td).1, event_ok sys e = true := by
  by_cases hc : sys.localOk sp td = true
  · intro e he
    simp only [run_local_script, List.mem_singleton] at he
    subst he
    simp [event_ok, hc]
  · simp [run_local_script, hc] at h

lemma delete_files_ok_events (sys : Sys) (mp res d : String)
    (h : (delete_files sys mp res d).2 = Outcome.ok) :
    ∀ e ∈ (delete_files sys mp res d).1, event_ok sys e = true := by
  by_cases hc : sys.shellOk ("sudo rm -rf " ++ pyJoin mp (py_lstrip_slash d)) = true
  · intro e he
    simp only [delete_files, List.mem_singleton] at he
    subst he
    simp [event_ok, hc]
  · simp [delete_files, hc] at h

lemma install_package_ok_events (sys : Sys) (mp res pkg : String)
    (h : (install_package sys mp res pkg).2 = Outcome.ok) :
    ∀ e ∈ (install_package sys mp res pkg).1, event_ok sys e = true := by
  by_cases hc : sys.argvOk ["sudo", "chroot", mp, "/bin/bash", "-c",
      "apt-get install --no-install-recommends -y " ++ pkg] = true
  · intro e he
    simp only [install_package, List.mem_singleton] at he
    subst he
    simp [event_ok, hc]
  · simp [install_package, hc] at h

lemma copy_files_ok_events (sys : Sys) (mp res src dst : String) (into : Bool) (perms : String)
    (h : (copy_files sys mp res src dst into perms).2 = Outcome.ok) :
    ∀ e ∈ (copy_files sys mp res src dst into perms).1, event_ok sys e = true := by
  cases into with
  | false =>
    simp only [copy_files, Bool.false_eq_true, if_false] at h ⊢
    by_cases hcp : sys.shellOk ("sudo cp -r " ++ pyJoin mp (py_lstrip_slash src) ++ " " ++ dst) = true
    · intro e he
      simp only [hcp, if_true, List.mem_cons, List.mem_singleton, List.not_mem_nil,
        or_false] at he
      rcases he with rfl | rfl
      · simp [event_ok]
      · simp [event_ok, hcp]
    · simp [hcp] at h
  | true =>
    simp only [copy_files, if_true] at h ⊢
    by_cases hcp : sys.shellOk ("sudo cp -r " ++ src ++ " " ++
        pyJoin mp (py_lstrip_slash dst)) = true
    · by_cases hch : sys.shellOk ("sudo chmod " ++ perms ++ " " ++
          pyJoin mp (py_lstrip_slash dst)) = true
      · intro e he
        simp only [hcp, if_true, List.mem_append, List.mem_cons, List.mem_singleton,
          List.not_mem_nil, or_false] at he
        rcases he with (rfl | rfl) | rfl
        · simp [event_ok]
        · simp [event_ok, hcp]
        · simp [event_ok, hch]
      · simp [hcp, hch] at h
    · simp [hcp] at h

lemma run_chroot_script_ok_events (ctx : Ctx) (sp : String)
    (h : (run_chroot_script ctx sp).2 = Outcome.ok) :
    ∀ e ∈ (run_chroot_script ctx sp).1, event_ok ctx.sys e = true := by
  simp only [run_chroot_script] at h ⊢
  split_ifs at h ⊢ with h1 h2 h3 h4 h5 h6
  all_goals simp only [Bool.not_eq_true', Bool.not_eq_false'] at h1 h2 h3 h4 h5
  all_goals try simp at h
  all_goals intro e he
  all_goals simp only [List.mem_cons, List.mem_singleton, List.not_mem_nil, or_false] at he
  · rcases he with rfl | rfl | rfl | rfl | rfl <;> simp [event_ok, h1, h2, h3, h4, h6]

/-- C6: a failing `chroot-cmd` is downgraded to a warning and execution
continues with the next command when `ignore-errors` is true, and aborts the
run when `ignore-errors` is absent or false (the dictionary default); and no
other command variant has such an escape hatch: for every other variant, a
normal return implies every invoked primitive succeeded. -/
theorem chroot_cmd_ignore_errors_escape_hatch (ctx : Ctx) (overlay_path temp_dir : String)
    (command : JValue) (c : JValue)
    (htype : pyGetItem command "type" = Except.ok (JValue.str "chroot-cmd"))
    (hcmd : pyGetItem command "cmd" = Except.ok c)
    (hfail : ctx.sys.shellOk (chroot_full_cmd ctx.environ ctx.mount (pyStr c)) = false) :
    (pyGet command "ignore-errors" (JValue.bool false) = JValue.bool true →
      exec_command ctx overlay_path temp_dir command =
        ([Event.shell (chroot_full_cmd ctx.environ ctx.mount (pyStr c))], Outcome.ok) ∧
      ∀ rest, runSeq (exec_command ctx overlay_path temp_dir) (command :: rest) =
        (Event.shell (chroot_full_cmd ctx.environ ctx.mount (pyStr c)) ::
           (runSeq (exec_command ctx overlay_path temp_dir) rest).1,
         (runSeq (exec_command ctx overlay_path temp_dir) rest).2)) ∧
    (pyGet command "ignore-errors" (JValue.bool false) = JValue.bool false →
      exec_command ctx overlay_path temp_dir command =
        ([Event.shell (chroot_full_cmd ctx.environ ctx.mount (pyStr c))], Outcome.exit 1)) ∧
    (∀ (other : JValue) (ty : String),
      pyGetItem other "type" = Except.ok (JValue.str ty) →
      ty ∈ (["local", "copy-into-chroot", "copy-from-chroot", "chroot-script",
             "chroot-rm", "chroot-install-package"] : List String) →
      (exec_command ctx overlay_path temp_dir other).2 = Outcome.ok →
      ∀ e ∈ (exec_command ctx overlay_path temp_dir other).1, event_ok ctx.sys e = true) := by
  have hexec : ∀ ign, pyGet command "ignore-errors" (JValue.bool false) = ign →
      exec_command ctx overlay_path temp_dir command = run_chroot_cmd ctx (pyStr c) ign := by
    intro ign hig
    simp [exec_command, htype, hcmd, JValue.isS, hig]
  refine ⟨?_, ?_, ?_⟩
  · intro hig
    have h1 : exec_command ctx overlay_path temp_dir command =
        ([Event.shell (chroot_full_cmd ctx.environ ctx.mount (pyStr c))], Outcome.ok) := by
      rw [hexec _ hig]
      simp [run_chroot_cmd, hfail, pyTruthy]
    refine ⟨h1, fun rest => ?_⟩
    rw [runSeq_cons_of_ok _ _ _ (by rw [h1]), h1]
    simp
  · intro hig
    rw [hexec _ hig]
    simp [run_chroot_cmd, hfail, pyTruthy]
  · intro other ty hty hmem hok e he
    simp only [List.mem_cons, List.mem_singleton, List.not_mem_nil, or_false] at hmem
    rcases hmem with rfl | rfl | rfl | rfl | rfl | rfl
    · -- local
      cases hs : pyGetItem other "script"
      case error => simp [exec_command, hty, hs, JValue.isS] at hok
      case ok sJ =>
        cases sJ
        case str s2 =>
          simp only [exec_command, hty, hs] at hok he
          simp only [JValue.isS, beq_self_eq_true, if_true] at hok he
          exact run_local_script_ok_events _ _ _ hok e he
        all_goals simp [exec_command, hty, hs, JValue.isS] at hok
    · -- copy-into-chroot
      cases hs : pyGetItem other "source"
      case error => simp [exec_command, hty, hs, JValue.isS] at hok
      case ok srcJ =>
        cases srcJ
        case str s2 =>
          cases hp : pyContains other "permissions"
          case error => simp [exec_command, hty, hs, hp, JValue.isS] at hok
          case ok hasPerm =>
            cases hasPerm
            case false => simp [exec_command, hty, hs, hp, JValue.isS] at hok
            case true =>
              cases hd : pyGetItem other "destination"
              case error => simp [exec_command, hty, hs, hp, hd, JValue.isS] at hok
              case ok dstJ =>
                cases dstJ
                case str d2 =>
                  simp only [exec_command, hty, hs, hp, hd] at hok he
                  simp only [JValue.isS] at hok he
                  simp only [show (("copy-into-chroot" == "local") : Bool) = false by decide,
                    beq_self_eq_true, Bool.false_eq_true, if_false, if_true] at hok he
                  exact copy_files_ok_events _ _ _ _ _ _ _ hok e he
                all_goals simp [exec_command, hty, hs, hp, hd, JValue.isS] at hok
        all_goals simp [exec_command, hty, hs, JValue.isS, pyContains] at hok
    · -- copy-from-chroot
      cases hd : pyGetItem other "destination"
      case error => simp [exec_command, hty, hd, JValue.isS] at hok
      case ok dstJ =>
        cases dstJ
        case str d2 =>
          cases hs : pyGetItem other "source"
          case error => simp [exec_command, hty, hd, hs, JValue.isS] at hok
          case ok srcJ =>
            cases srcJ
            case str s2 =>
              simp only [exec_command, hty, hd, hs] at hok he
              simp only [JValue.isS] at hok he
              simp only [show (("copy-from-chroot" == "local") : Bool) = false by decide,
                show (("copy-from-chroot" == "copy-into-chroot") : Bool) = false by decide,
                beq_self_eq_true, Bool.false_eq_true, if_false, if_true] at hok he
              exact copy_files_ok_events _ _ _ _ _ _ _ hok e he
            all_goals simp [exec_command, hty, hd, hs, JValue.isS] at hok
        all_goals simp [exec_command, hty, hd, JValue.isS, pyContains] at hok
    · -- chroot-script
      cases hs : pyGetItem other "script"
      case error => simp [exec_command, hty, hs, JValue.isS] at hok
      case ok sJ =>
        cases sJ
        case str s2 =>
          simp only [exec_command, hty, hs] at hok he
          simp only [JValue.isS] at hok he
          simp only [show (("chroot-script" == "local") : Bool) = false by decide,
            show (("chroot-script" == "copy-into-chroot") : Bool) = false by decide,
            show (("chroot-script" == "copy-from-chroot") : Bool) = false by decide,
            show (("chroot-script" == "chroot-cmd") : Bool) = false by decide,
            beq_self_eq_true, Bool.false_eq_true, if_false, if_true] at hok he
          exact run_chroot_script_ok_events _ _ hok e he
        all_goals simp [exec_command, hty, hs, JValue.isS] at hok
    · -- chroot-rm
      cases hd : pyGetItem other "destination"
      case error => simp [exec_command, hty, hd, JValue.isS] at hok
      case ok dstJ =>
        cases dstJ
        case str d2 =>
          simp only [exec_command, hty, hd] at hok he
          simp only [JValue.isS] at hok he
          simp only [show (("chroot-rm" == "local") : Bool) = false by decide,
            show (("chroot-rm" == "copy-into-chroot") : Bool) = false by decide,
            show (("chroot-rm" == "copy-from-chroot") : Bool) = false by decide,
            show (("chroot-rm" == "chroot-cmd") : Bool) = false by decide,
            show (("chroot-rm" == "chroot-script") : Bool) = false by decide,
            beq_self_eq_true, Bool.false_eq_true, if_false, if_true] at hok he
          exact delete_files_ok_events _ _ _ _ hok e he
        all_goals simp [exec_command, hty, hd, JValue.isS] at hok
    · -- chroot-install-package
      cases hp : pyGetItem other "package"
      case error => simp [exec_command, hty, hp, JValue.isS] at hok
      case ok pJ =>
        simp only [exec_command, hty, hp] at hok he
        simp only [JValue.isS] at hok he
        simp only [show (("chroot-install-package" == "local") : Bool) = false by decide,
          show (("chroot-install-package" == "copy-into-chroot") : Bool) = false by decide,
          show (("chroot-install-package" == "copy-from-chroot") : Bool) = false by decide,
          show (("chroot-install-package" == "chroot-cmd") : Bool) = false by decide,
          show (("chroot-install-package" == "chroot-script") : Bool) = false by decide,
          show (("chroot-install-package" == "chroot-rm") : Bool) = false by decide,
          beq_self_eq_true, Bool.false_eq_true, if_false, if_true] at hok he
        exact install_package_ok_events _ _ _ _ hok e he

/-- An oracle whose every fallible primitive fails. -/
def fail_shell_sys : Sys :=
  ⟨fun _ => false, fun _ => false, fun _ _ => false, fun _ => false, "/t"⟩

/-- An empty abstract filesystem. -/
def empty_fs : FS := ⟨fun _ => false, fun _ => false, fun _ => [], fun _ => none⟩

/-- A context over the failing oracle and the empty filesystem. -/
def c6_ctx : Ctx := ⟨fail_shell_sys, empty_fs, [], "/mnt", "", []⟩

/-- A `chroot-cmd` command with `ignore-errors: true`. -/
def c6_command : JValue :=
  JValue.obj [("type", JValue.str "chroot-cmd"), ("cmd", JValue.str "false"),
    ("ignore-errors", JValue.bool true)]

/-- Witness for C6: a concrete failing `chroot-cmd` with `ignore-errors:
true` returns normally. -/
theorem chroot_cmd_ignore_errors_escape_hatch_witness :
    pyGet c6_command "ignore-errors" (JValue.bool false) = JValue.bool true ∧
    exec_command c6_ctx "/ov" "/t" c6_command =
      ([Event.shell (chroot_full_cmd [] "/mnt" "false")], Outcome.ok) :=
  ⟨rfl, ((chroot_cmd_ignore_errors_escape_hatch c6_ctx "/ov" "/t" c6_command
      (JValue.str "false") rfl rfl rfl).1 rfl).1⟩

/-- C8: with search paths `[A, B]` each containing one overlay definition
and both definitions carrying the same name, the listing contains exactly
one entry for that name: the definition found under `A`, at `A`'s overlay
directory (first occurrence wins, the later duplicate is dropped). -/
theorem list_overlays_dedup_first_wins (fs : FS) (A B eA eB : String)
    (dA dB nm nmB : JValue)
    (hAdir : fs.isDir (pyJoin A OVERLAY_DIR) = true)
    (hAls : fs.listdir (pyJoin A OVERLAY_DIR) = [eA])
    (hApd : fs.isDir (pyJoin (pyJoin A OVERLAY_DIR) eA) = true)
    (hApf : fs.isFile (pyJoin (pyJoin (pyJoin A OVERLAY_DIR) eA) "overlay.json") = true)
    (hAj : fs.readJson (pyJoin (pyJoin (pyJoin A OVERLAY_DIR) eA) "overlay.json") = some dA)
    (hAv : validate_overlay dA = Except.ok true)
    (hAn : pyGetItem dA "name" = Except.ok nm)
    (hBdir : fs.isDir (pyJoin B OVERLAY_DIR) = true)
    (hBls : fs.listdir (pyJoin B OVERLAY_DIR) = [eB])
    (hBpd : fs.isDir (pyJoin (pyJoin B OVERLAY_DIR) eB) = true)
    (hBpf : fs.isFile (pyJoin (pyJoin (pyJoin B OVERLAY_DIR) eB) "overlay.json") = true)
    (hBj : fs.readJson (pyJoin (pyJoin (pyJoin B OVERLAY_DIR) eB) "overlay.json") = some dB)
    (hBv : validate_overlay dB = Except.ok true)
    (hBn : pyGetItem dB "name" = Except.ok nmB)
    (hsame : JValue.beq nmB nm = true) :
    list_overlays fs [A, B] = Except.ok [(dA, pyJoin (pyJoin A OVERLAY_DIR) eA)] := by
  simp only [list_overlays, list_overlays_bases, list_overlays_base, hAdir, hBdir, if_true,
    hAls, hBls, list_overlays_scan, list_overlays_entry, hApd, hApf, hBpd, hBpf,
    Bool.and_self, hAj, hBj, hAv, hAn, hBv, hBn, List.any_nil, List.any_cons, hsame,
    Bool.or_false, Bool.false_eq_true, if_false, List.nil_append]

/-- Overlay definition named `base` living under the first search path. -/
def c8_dA : JValue :=
  JValue.obj [("name", JValue.str "base"), ("description", JValue.str "dA"),
    ("commands", JValue.list [])]

/-- Overlay definition named `base` living under the second search path. -/
def c8_dB : JValue :=
  JValue.obj [("name", JValue.str "base"), ("description", JValue.str "dB"),
    ("commands", JValue.list [])]

/-- A filesystem where both `/a` and `/b` define a valid overlay `base`. -/
def c8_fs : FS where
  isDir := fun p => p == "/a/overlays" || p == "/b/overlays" ||
    p == "/a/overlays/base" || p == "/b/overlays/base"
  isFile := fun p => p == "/a/overlays/base/overlay.json" ||
    p == "/b/overlays/base/overlay.json"
  listdir := fun p =>
    if p == "/a/overlays" then ["base"]
    else if p == "/b/overlays" then ["base"] else []
  readJson := fun p =>
    if p == "/a/overlays/base/overlay.json" then some c8_dA
    else if p == "/b/overlays/base/overlay.json" then some c8_dB else none

/-- Witness for C8 at a concrete two-path catalog. -/
theorem list_overlays_dedup_first_wins_witness :
    list_overlays c8_fs ["/a", "/b"] = Except.ok [(c8_dA, "/a/overlays/base")] :=
  list_overlays_dedup_first_wins c8_fs "/a" "/b" "base" "base" c8_dA c8_dB
    (JValue.str "base") (JValue.str "base")
    (by decide) rfl (by decide) (by decide) rfl rfl rfl
    (by decide) rfl (by decide) (by decide) rfl rfl rfl
    (by simp [JValue.beq])

/-- Overlay definition used by the resolution counterexample. -/
def c2_overlay_data : JValue :=
  JValue.obj [("name", JValue.str "net"), ("description", JValue.str "d"),
    ("commands", JValue.list [])]

/-- A filesystem where `/a/overlays/net` exists as a directory but only
`/b/overlays/net/overlay.json` exists as a file. -/
def c2_fs : FS where
  isDir := fun p => p == "/a/overlays" || p == "/b/overlays" ||
    p == "/a/overlays/net" || p == "/b/overlays/net"
  isFile := fun p => p == "/b/overlays/net/overlay.json"
  listdir := fun _ => []
  readJson := fun p =>
    if p == "/b/overlays/net/overlay.json" then some c2_overlay_data else none

/-- Context with search paths `["/a", "/b"]` over `c2_fs`. -/
def c2_ctx : Ctx := ⟨fail_shell_sys, c2_fs, [], "/mnt", "", ["/a", "/b"]⟩

/-- An overlay step named `net`. -/
def c2_step : JValue := JValue.obj [("type", JValue.str "overlay"), ("name", JValue.str "net")]

/-- Counterexample to C2 as stated: overlay resolution does not probe
`overlays/<name>/overlay.json`. Under `c2_fs`, the first directory whose
`overlays/net/overlay.json` exists is `/b`, but the code resolves `net` to
`/a` (whose `overlays/net` directory exists without the JSON file) and then
crashes loading `/a/overlays/net/overlay.json`. -/
theorem overlay_resolution_counterexample :
    spec_resolve_overlay_dir c2_fs ["/a", "/b"] "net" = some "/b" ∧
    resolve_overlay_dir c2_fs ["/a", "/b"] "net" = some "/a" ∧
    process_stack_step 3 c2_ctx c2_step = ([], Outcome.pyerror "JSON load failed") :=
  ⟨by decide, by decide, by decide⟩

/-- C2 (amended): resolution scans the search paths in order; for kind
stack it returns the first directory whose `stacks/<name>.json` file exists
(as the claim states), while for kind overlay it returns the first directory
whose `overlays/<name>` directory exists — the presence of `overlay.json` is
not checked. In particular a match under `A` always beats `[A, B]`'s `B`,
and a resolved overlay step is applied from the resolved directory. -/
theorem overlay_stack_resolution_amended (fs : FS) (n A : String) (rest : List String) :
    (fs.isDir (overlay_def_dir A n) = true →
      resolve_overlay_dir fs (A :: rest) n = some A) ∧
    (fs.isDir (overlay_def_dir A n) = false →
      resolve_overlay_dir fs (A :: rest) n = resolve_overlay_dir fs rest n) ∧
    (fs.isFile (stack_def_file A n) = true →
      resolve_stack_file fs (A :: rest) n = some A) ∧
    (fs.isFile (stack_def_file A n) = false →
      resolve_stack_file fs (A :: rest) n = resolve_stack_file fs rest n) ∧
    (∀ (fuel : Nat) (ctx : Ctx) (step : JValue) (nm base : String),
      pyGetItem step "name" = Except.ok (JValue.str nm) →
      pyContains step "enabled" = Except.ok false →
      pyGetItem step "type" = Except.ok (JValue.str "overlay") →
      resolve_overlay_dir ctx.fs ctx.search_paths nm = some base →
      process_stack_step fuel ctx step = apply_overlay ctx (overlay_def_dir base nm)) := by
  refine ⟨?_, ?_, ?_, ?_, ?_⟩
  · intro h
    unfold resolve_overlay_dir
    rw [List.find?_cons_of_pos _ (by simpa using h)]
  · intro h
    unfold resolve_overlay_dir
    rw [List.find?_cons_of_neg _ (by simpa using h)]
  · intro h
    unfold resolve_stack_file
    rw [List.find?_cons_of_pos _ (by simpa using h)]
  · intro h
    unfold resolve_stack_file
    rw [List.find?_cons_of_neg _ (by simpa using h)]
  · intro fuel ctx step nm base hname hen htype hres
    simp [process_stack_step, process_stack_step_core, hname, hen, htype, hres, JValue.isS]

/-- Witness for amended C2: under `c2_fs` the overlay step `net` resolves to
`/a` (the first base with an `overlays/net` directory) and is applied from
there. -/
theorem overlay_stack_resolution_amended_witness :
    c2_fs.isDir (overlay_def_dir "/a" "net") = true ∧
    resolve_overlay_dir c2_fs ["/a", "/b"] "net" = some "/a" ∧
    process_stack_step 3 c2_ctx c2_step = apply_overlay c2_ctx (overlay_def_dir "/a" "net") :=
  ⟨by decide,
   (overlay_stack_resolution_amended c2_fs "net" "/a" ["/b"]).1 (by decide),
   (overlay_stack_resolution_amended c2_fs "net" "/a" ["/b"]).2.2.2.2 3 c2_ctx c2_step
     "net" "/a" rfl rfl rfl (by decide)⟩

/-- An oracle whose every fallible primitive succeeds. -/
def all_ok_sys : Sys :=
  ⟨fun _ => true, fun _ => true, fun _ _ => true, fun _ => true, "/t"⟩

/-- A valid `chroot-rm` command (used as the earlier command). -/
def c1_rm_command : JValue :=
  JValue.obj [("type", JValue.str "chroot-rm"), ("destination", JValue.str "/x")]

/-- A `chroot-cmd` command missing its required `cmd` field. -/
def c1_bad_command : JValue := JValue.obj [("type", JValue.str "chroot-cmd")]

/-- Overlay definition whose second command is missing a required field, so
it fails validation. -/
def c1_data : JValue :=
  JValue.obj [("name", JValue.str "n"), ("description", JValue.str "d"),
    ("commands", JValue.list [c1_rm_command, c1_bad_command])]

/-- Filesystem serving `c1_data` as `/ov/overlay.json`. -/
def c1_fs : FS where
  isDir := fun _ => false
  isFile := fun _ => false
  listdir := fun _ => []
  readJson := fun p => if p == "/ov/overlay.json" then some c1_data else none

/-- Context over `c1_fs` with an all-succeeding oracle. -/
def c1_ctx : Ctx := ⟨all_ok_sys, c1_fs, [], "/mnt", "", []⟩

/-- Counterexample to C1 as stated: `apply_overlay` performs no
re-validation. `c1_data` fails validation (its second command lacks `cmd`),
yet applying the overlay executes the first command's removal primitive (a
side effect) before aborting with the `KeyError` at the second command. -/
theorem apply_overlay_no_revalidation_counterexample :
    validate_overlay c1_data = Except.ok false ∧
    apply_overlay c1_ctx "/ov" =
      ([Event.mkdtemp "/t", Event.shell "sudo rm -rf /mnt/x"],
       Outcome.pyerror "KeyError: cmd") :=
  ⟨rfl, by decide⟩

/-- C1 (amended): `apply_overlay` loads the overlay without re-validating
it; commands execute strictly in order, and a command that aborts (for
example because a variant-specific required field is missing) stops the run
at that command — after every earlier command has already executed its side
effects, which are kept. -/
theorem apply_overlay_aborts_at_faulty_command (ctx : Ctx) (overlay_path : String)
    (data : JValue) (pre : List JValue) (bad : JValue) (post : List JValue)
    (hread : ctx.fs.readJson (pyJoin overlay_path "overlay.json") = some data)
    (hcmds : pyGetItem data "commands" = Except.ok (JValue.list (pre ++ bad :: post)))
    (hpre : ∀ p ∈ pre, (exec_command ctx overlay_path ctx.sys.tempDir p).2 = Outcome.ok)
    (hbad : (exec_command ctx overlay_path ctx.sys.tempDir bad).2 ≠ Outcome.ok) :
    apply_overlay ctx overlay_path =
      (Event.mkdtemp ctx.sys.tempDir ::
        ((pre.map (fun p => (exec_command ctx overlay_path ctx.sys.tempDir p).1)).join ++
          (exec_command ctx overlay_path ctx.sys.tempDir bad).1),
       (exec_command ctx overlay_path ctx.sys.tempDir bad).2) := by
  have h := runSeq_append_abort (exec_command ctx overlay_path ctx.sys.tempDir)
    pre bad post hpre hbad
  rcases hb : exec_command ctx overlay_path ctx.sys.tempDir bad with ⟨esb, ob⟩
  rw [hb] at h hbad
  simp only at h hbad
  cases ob with
  | ok => exact absurd rfl hbad
  | exit c => simp only [apply_overlay, hread, hcmds, h, hb]
  | pyerror m => simp only [apply_overlay, hread, hcmds, h, hb]
  | outOfFuel => simp only [apply_overlay, hread, hcmds, h, hb]

/-- Witness for amended C1: the concrete invalid overlay of the
counterexample aborts at its second command with the first command's
effect retained. -/
theorem apply_overlay_aborts_at_faulty_command_witness :
    (∀ p ∈ [c1_rm_command], (exec_command c1_ctx "/ov" "/t" p).2 = Outcome.ok) ∧
    apply_overlay c1_ctx "/ov" =
      (Event.mkdtemp c1_ctx.sys.tempDir ::
        (([c1_rm_command].map
            (fun p => (exec_command c1_ctx "/ov" c1_ctx.sys.tempDir p).1)).join ++
          (exec_command c1_ctx "/ov" c1_ctx.sys.tempDir c1_bad_command).1),
       (exec_command c1_ctx "/ov" c1_ctx.sys.tempDir c1_bad_command).2) :=
  ⟨by decide,
   apply_overlay_aborts_at_faulty_command c1_ctx "/ov" c1_data [c1_rm_command]
     c1_bad_command [] rfl rfl (by decide) (by decide)⟩

/-- C3: when a stack's steps are processed in order and one step is enabled
but fails to resolve (no search path has the overlay directory, respectively
the stack JSON file), applying the stack executes every earlier step fully
(their traces are kept, nothing is undone), emits a resolution error for the
failing step with no content of it or of any later step executing, and the
run aborts with exit status 1. -/
theorem stack_aborts_at_unresolved_step (fuel : Nat) (ctx : Ctx) (stack_path : String)
    (stack_data : JValue) (pre : List JValue) (step : JValue) (post : List JValue) (n : String)
    (hfile : ctx.fs.isFile stack_path = true)
    (hread : ctx.fs.readJson stack_path = some stack_data)
    (hvalid : validate_stack stack_data = Except.ok true)
    (hsteps : pyGetItem stack_data "steps" = Except.ok (JValue.list (pre ++ step :: post)))
    (hpre : ∀ p ∈ pre, (process_stack_step fuel ctx p).2 = Outcome.ok)
    (hname : pyGetItem step "name" = Except.ok (JValue.str n))
    (hen : pyContains step "enabled" = Except.ok false)
    (hres :
      (pyGetItem step "type" = Except.ok (JValue.str "overlay") ∧
        resolve_overlay_dir ctx.fs ctx.search_paths n = none) ∨
      (pyGetItem step "type" = Except.ok (JValue.str "stack") ∧
        resolve_stack_file ctx.fs ctx.search_paths n = none)) :
    ∃ msg, apply_stack (fuel + 1) ctx stack_path =
      ((pre.map (fun p => (process_stack_step fuel ctx p).1)).join ++
        [Event.resolutionError msg], Outcome.exit 1) := by
  have hstep : ∃ msg, process_stack_step fuel ctx step =
      ([Event.resolutionError msg], Outcome.exit 1) := by
    rcases hres with ⟨htype, hnone⟩ | ⟨htype, hnone⟩
    · exact ⟨"overlay not found in overlay paths: " ++ n,
        by simp [process_stack_step, process_stack_step_core, hname, hen, htype, hnone,
          JValue.isS]⟩
    · exact ⟨"stack json not found in overlay paths: " ++ n,
        by simp [process_stack_step, process_stack_step_core, hname, hen, htype, hnone,
          JValue.isS]⟩
  obtain ⟨msg, hmsg⟩ := hstep
  refine ⟨msg, ?_⟩
  have hmain : runSeq (fun s => process_stack_step fuel ctx s) (pre ++ step :: post) =
      ((pre.map (fun p => (process_stack_step fuel ctx p).1)).join ++
        [Event.resolutionError msg], Outcome.exit 1) := by
    rw [runSeq_append_abort _ pre step post hpre (by rw [hmsg]; simp), hmsg]
  simp only [apply_stack, hfile, Bool.not_true, Bool.false_eq_true, if_false, hread,
    hvalid, hsteps]
  exact hmain

/-- Disabled first step of the C3 witness stack. -/
def c3_step_pre : JValue :=
  JValue.obj [("type", JValue.str "overlay"), ("name", JValue.str "skipme"),
    ("enabled", JValue.bool false)]

/-- Unresolvable stack step of the C3 witness stack. -/
def c3_step_bad : JValue :=
  JValue.obj [("type", JValue.str "stack"), ("name", JValue.str "base")]

/-- The C3 witness stack definition. -/
def c3_stack_data : JValue :=
  JValue.obj [("name", JValue.str "s"), ("description", JValue.str "d"),
    ("steps", JValue.list [c3_step_pre, c3_step_bad])]

/-- Filesystem containing only the C3 witness stack file. -/
def c3_fs : FS where
  isDir := fun _ => false
  isFile := fun p => p == "/a/stacks/s.json"
  listdir := fun _ => []
  readJson := fun p => if p == "/a/stacks/s.json" then some c3_stack_data else none

/-- Context over `c3_fs` with search path `/a`. -/
def c3_ctx : Ctx := ⟨all_ok_sys, c3_fs, [], "/mnt", "", ["/a"]⟩

/-- Witness for C3: the concrete stack whose second step cannot be resolved
aborts after its (skipped) first step with a resolution error. -/
theorem stack_aborts_at_unresolved_step_witness :
    (∀ p ∈ [c3_step_pre], (process_stack_step 2 c3_ctx p).2 = Outcome.ok) ∧
    ∃ msg, apply_stack 3 c3_ctx "/a/stacks/s.json" =
      (([c3_step_pre].map (fun p => (process_stack_step 2 c3_ctx p).1)).join ++
        [Event.resolutionError msg], Outcome.exit 1) :=
  ⟨by decide,
   stack_aborts_at_unresolved_step 2 c3_ctx "/a/stacks/s.json" c3_stack_data
     [c3_step_pre] c3_step_bad [] "base" (by decide) rfl rfl rfl (by decide) rfl rfl
     (Or.inr ⟨rfl, by decide⟩)⟩
